import Mathlib

namespace DNoiSe

/-!
Shallow embedding of DNoiSe.py, the single source file of the repository.
Records returned by the pi-hole query-log API are positional lists of
string fields: index 1 holds the query record type, index 3 holds the
source host.  Python float arithmetic is modelled with rationals, so the
divisions are exact.
-/

/-- A DNS query record from the pi-hole API: a positional list of string
fields.  Index 1 is the record type, index 3 is the source host. -/
abbrev Record := List String

/-- The sampling window length in seconds.  The code uses the literal 300
in `time_from = time_until - 300` and in `300.0 / len(genuine_queries)`. -/
def LOG_INTERVAL : ℚ := 300

/-- Lines 156-164: the first filtering loop.  Walks the data list and
keeps, in order, every record whose source host (field at index 3) is not
in the excluded set, mirroring the test a[3] not in excluded_hosts.
Returns none when some record has no index 3: there the Python loop
raises, the handler logs and the process exits. -/
def genuineQueries (excluded : List String) : List Record → Option (List Record)
  | [] => some []
  | a :: rest =>
    match a[3]? with
    | none => none
    | some h =>
      match genuineQueries excluded rest with
      | none => none
      | some gs => some (if h ∈ excluded then gs else a :: gs)

/-- Lines 172-180: the second filtering loop.  Collects the record type
(index 1) of every record whose source host (index 3) is not in the
excluded set; same failure mode as the first loop. -/
def queryTypes (excluded : List String) : List Record → Option (List String)
  | [] => some []
  | a :: rest =>
    match a[3]? with
    | none => none
    | some h =>
      if h ∈ excluded then queryTypes excluded rest
      else
        match a[1]? with
        | none => none
        | some t =>
          match queryTypes excluded rest with
          | none => none
          | some ts => some (t :: ts)

/-- Lines 166-168: when `genuine_queries` is empty a sentinel string is
appended so that the list has length 1.  Every later use of the list is
`len(genuine_queries)`, so the embedding keeps the guarded length. -/
def genuineCount (gs : List Record) : ℕ :=
  if gs.length = 0 then 1 else gs.length

/-- The expression `300.0 / len(genuine_queries)` as it appears in the
debug diagnostic (line 193). -/
def debugAvgInterval (gs : List Record) : ℚ :=
  LOG_INTERVAL / (genuineCount gs : ℚ)

/-- The expression `300.0 / len(genuine_queries)` as it appears as the
base of the pacing sleep (line 223). -/
def sleepBase (gs : List Record) : ℚ :=
  LOG_INTERVAL / (genuineCount gs : ℚ)

/-- Lines 182-184: when `query_types` is empty, a single "A" entry is
substituted. -/
def typePool (ts : List String) : List String :=
  if ts.length = 0 then ["A"] else ts

/-- Outcome of one sampling-and-estimation pass of the outer loop body:
either the process exits (with its code and the logged error message), or
the loop continues into emission with the estimated interval and pool. -/
inductive MainOutcome where
  | exited (code : ℕ) (logMsg : String)
  | cont (interval : ℚ) (pool : List String)
deriving Repr, DecidableEq

/-- Lines 151-184 of main: parse/filter the API response and derive the
estimate.  The response is the already-parsed JSON body: none models any
shape without an iterable data list of indexable records (the access at
line 158 raises inside the try block); a record without index 3 makes the
corresponding loop raise.  Either failure is logged and the process exits
with code 1.  Messages are the source strings (quotes elided). -/
def processResponse (excluded : List String) (resp : Option (List Record)) :
    MainOutcome :=
  match resp with
  | none => .exited 1 "Got badly formatted pi-hole API response, quitting."
  | some data =>
    match genuineQueries excluded data with
    | none => .exited 1 "Got badly formatted pi-hole API response, quitting."
    | some gs =>
      match queryTypes excluded data with
      | none => .exited 1 "Pi-hole API response in wrong format. Investigate."
      | some ts => .cont (LOG_INTERVAL / (genuineCount gs : ℚ)) (typePool ts)

/-- Observable behaviour of one iteration of the inner emission loop. -/
structure InnerStepResult where
  /-- an exception escaped the iteration -/
  raised : Bool
  /-- a log entry was written for a failed resolution -/
  loggedFailure : Bool
  /-- the iteration broke out to the outer resampling loop -/
  breakLoop : Bool
  /-- the sleep performed at the end of the iteration, if any -/
  sleep : Option ℚ
deriving Repr, DecidableEq

/-- Lines 199-224: one iteration of the inner emission loop, after the
domain lookup.  resolveOk is the outcome of dns.resolver.query; the
try/except swallows a failure with a bare pass and writes no log entry,
so the rest of the iteration does not depend on resolveOk at all.  The
loop breaks when now - time_until > 60 (line 217-219); otherwise it
sleeps (300.0 / len(genuine_queries)) * 10 + jitter, where jitter is the
value drawn by random.uniform(0, 2) (line 223-224). -/
def innerStep (resolveOk : Bool) (now timeUntil : ℤ) (gs : List Record)
    (jitter : ℚ) : InnerStepResult :=
  if now - timeUntil > 60 then
    { raised := false, loggedFailure := false, breakLoop := true,
      sleep := none }
  else
    { raised := false, loggedFailure := false, breakLoop := false,
      sleep := some (sleepBase gs * 10 + jitter) }

/-- The set of values random.randint(1, 1000000) can return: the closed
integer range (randint is inclusive at both ends).  Uniformity of the
draw is a property of the PRNG, outside the embedding. -/
def randintSupport (a b : ℕ) : Finset ℕ := Finset.Icc a b

/-- Lines 200-204: the Domains table as a keyed store, rank to domain
(SELECT Domain FROM Domains WHERE ID = r is a lookup).  fetchone()
returns None when the row is absent, and the subscript [0] then raises:
none models that failure, some d the successful fetch of the domain. -/
def pickRandomDomain (corpus : ℕ → Option String) (r : ℕ) : Option String :=
  corpus r

/-- Lines 140-149: the API fetch retry loop.  attempts models successive
evaluations of requests.get: none is a raised transport error, some r a
response.  On each failure the code logs a warning and sleeps 15 seconds;
the embedding records the list of sleeps.  The loop only leaves via break
on a success, returning that response; a none result means no success
occurred within the modelled prefix of attempts (the real loop would keep
retrying). -/
def apiRetryLoop {α : Type} : List (Option α) → Option (α × List ℕ)
  | [] => none
  | none :: rest => (apiRetryLoop rest).map (fun p => (p.1, 15 :: p.2))
  | some r :: _ => some (r, [])

/-- A YAML configuration value, as far as the defaults need. -/
inductive CfgVal where
  | str (s : String)
  | strList (l : List String)
  | bool (b : Bool)
deriving Repr, DecidableEq

/-- os.getcwd(): an environment value, modelled as an abstract constant. -/
def CWD : String := "."

/-- Lines 21-34: DEFAULT_CONFIG. -/
def DEFAULT_CONFIG : List (String × CfgVal) :=
  [("work_dir", .str CWD),
   ("excluded_hosts", .strList ["127.0.0.1", "localhost"]),
   ("pihole_ip", .str "127.0.0.1"),
   ("log_file", .str "dnoise.log"),
   ("domains_file", .str "domains.sqlite"),
   ("debugging", .bool false)]

/-- The Python test k in cfg, on a mapping modelled as a key-value list. -/
def hasKey (cfg : List (String × CfgVal)) (k : String) : Bool :=
  (cfg.map Prod.fst).contains k

/-- Lines 54-57: fill in defaults for keys absent from the file. -/
def applyDefaults (cfg : List (String × CfgVal)) : List (String × CfgVal) :=
  DEFAULT_CONFIG.foldl (fun c kv => if hasKey c kv.1 then c else c ++ [kv]) cfg

/-- Line 59 converts excluded_hosts to a set; on the list model this is
deduplication, membership semantics unchanged. -/
def dedupVal : CfgVal → CfgVal
  | .strList l => .strList l.dedup
  | v => v

/-- Line 59: cfg["excluded_hosts"] = set(cfg["excluded_hosts"]). -/
def setExcludedHosts (cfg : List (String × CfgVal)) : List (String × CfgVal) :=
  cfg.map (fun kv => if kv.1 = "excluded_hosts" then (kv.1, dedupVal kv.2) else kv)

/-- Lines 39-61: get_config.  file is the parsed YAML mapping when the
configuration file exists, none when it does not.  Error carries the
logged message (source text, single quotes around auth_token elided) and
the exit code. -/
def get_config (file : Option (List (String × CfgVal))) :
    Except (String × ℕ) (List (String × CfgVal)) :=
  match file with
  | none => .error ("Configuration file config.yml not found, aborting.", 1)
  | some cfg =>
    if hasKey cfg "auth_token" then
      .ok (setExcludedHosts (applyDefaults cfg))
    else
      .error ("Configuration file config.yml does not contain the required auth_token element, aboring.", 1)

/-- Externally visible startup events of main. -/
inductive Event where
  | log (msg : String)
  | exit (code : ℕ)
  | network
deriving Repr, DecidableEq

/-- Lines 113-126: the startup of main.  get_config runs first and only
reads the local file; on its failure the error is logged and the process
exits with the carried code.  On success main proceeds to log setup and
then to its first network activity (the corpus download when the domains
file is absent, otherwise wait_for_connection), abbreviated here to a
single network event since the claims concern the error path. -/
def mainStartup (file : Option (List (String × CfgVal))) : List Event :=
  match get_config file with
  | .error e => [Event.log e.1, Event.exit e.2]
  | .ok _ => [Event.network]

/-- A well-formed sample record: timestamp, type, domain, source host. -/
def sampleRecord : Record := ["1660000000", "A", "example.com", "192.168.0.10"]

/-- A record whose source host is localhost, for exclusion tests. -/
def localRecord : Record := ["1660000000", "A", "example.com", "localhost"]

/-- A corpus populated at every rank, for the witness of the domain pick. -/
def constCorpus : ℕ → Option String := fun _ => some "example.com"

/-- When every record of the data list is excluded, the first filtering
loop succeeds with the empty list. -/
theorem genuineQueries_all_excluded (excluded : List String) :
    ∀ data : List Record,
      (∀ a ∈ data, ∃ h, a[3]? = some h ∧ h ∈ excluded) →
      genuineQueries excluded data = some [] := by
  intro data
  induction data with
  | nil => intro _; rfl
  | cons a rest ih =>
      intro hall
      obtain ⟨h, h3, hc⟩ := hall a (List.mem_cons_self a rest)
      have hrest := ih (fun b hb => hall b (List.mem_cons_of_mem a hb))
      simp [genuineQueries, h3, hrest, hc]

/-- When every record of the data list is excluded, the second filtering
loop succeeds with the empty list. -/
theorem queryTypes_all_excluded (excluded : List String) :
    ∀ data : List Record,
      (∀ a ∈ data, ∃ h, a[3]? = some h ∧ h ∈ excluded) →
      queryTypes excluded data = some [] := by
  intro data
  induction data with
  | nil => intro _; rfl
  | cons a rest ih =>
      intro hall
      obtain ⟨h, h3, hc⟩ := hall a (List.mem_cons_self a rest)
      have hrest := ih (fun b hb => hall b (List.mem_cons_of_mem a hb))
      simp [queryTypes, h3, hrest, hc]

/-- If some record of the data list has no field at index 3, the first
filtering loop raises (returns none). -/
theorem genuineQueries_isNone_of_missing (excluded : List String) :
    ∀ data : List Record, (∃ a ∈ data, a[3]? = none) →
      genuineQueries excluded data = none := by
  intro data
  induction data with
  | nil => rintro ⟨a, ha, _⟩; exact absurd ha (List.not_mem_nil a)
  | cons b rest ih =>
      rintro ⟨a, ha, h3⟩
      rcases List.mem_cons.mp ha with rfl | hmem
      · simp [genuineQueries, h3]
      · have hr := ih ⟨a, hmem, h3⟩
        cases hb : b[3]? with
        | none => simp [genuineQueries, hb]
        | some h => simp [genuineQueries, hb, hr]

/-- The two filtering loops keep the same records: when both succeed, the
list of collected types is exactly as long as the list of genuine
records. -/
theorem queryTypes_length_eq (excluded : List String) :
    ∀ (data gs : List Record) (ts : List String),
      genuineQueries excluded data = some gs →
      queryTypes excluded data = some ts → ts.length = gs.length := by
  intro data
  induction data with
  | nil =>
      intro gs ts hgs hts
      simp only [genuineQueries, Option.some.injEq] at hgs
      simp only [queryTypes, Option.some.injEq] at hts
      subst hgs
      subst hts
      rfl
  | cons a rest ih =>
      intro gs ts hgs hts
      simp only [genuineQueries] at hgs
      simp only [queryTypes] at hts
      cases h3 : a[3]? with
      | none => simp [h3] at hgs
      | some h =>
          simp only [h3] at hgs hts
          cases hr : genuineQueries excluded rest with
          | none => simp [hr] at hgs
          | some gs' =>
              simp only [hr, Option.some.injEq] at hgs
              by_cases hc : h ∈ excluded
              · rw [if_pos hc] at hgs hts
                subst hgs
                exact ih _ ts hr hts
              · rw [if_neg hc] at hgs hts
                cases h1 : a[1]? with
                | none => simp [h1] at hts
                | some t =>
                    simp only [h1] at hts
                    cases hr2 : queryTypes excluded rest with
                    | none => simp [hr2] at hts
                    | some ts' =>
                        simp only [hr2, Option.some.injEq] at hts
                        subst hgs
                        subst hts
                        simpa using ih gs' ts' hr hr2

/-- C1: for every filtered (non-excluded) record set of size n with
n ≥ 1, the computed emission interval equals LOG_INTERVAL / n = 300 / n
seconds exactly, and this is the value appearing both in the debug
diagnostic and as the base of the pacing sleep. -/
theorem interval_is_logInterval_div_count (excluded : List String)
    (data gs : List Record)
    (hgs : genuineQueries excluded data = some gs) (hn : 1 ≤ gs.length) :
    debugAvgInterval gs = 300 / (gs.length : ℚ) ∧
    sleepBase gs = 300 / (gs.length : ℚ) := by
  have h0 : gs.length ≠ 0 := by omega
  constructor <;>
    simp [debugAvgInterval, sleepBase, genuineCount, LOG_INTERVAL, h0]

/-- Witness for C1 at a concrete two-record sample. -/
theorem interval_is_logInterval_div_count_witness :
    debugAvgInterval [sampleRecord, sampleRecord] =
      300 / (([sampleRecord, sampleRecord] : List Record).length : ℚ) ∧
    sleepBase [sampleRecord, sampleRecord] =
      300 / (([sampleRecord, sampleRecord] : List Record).length : ℚ) :=
  interval_is_logInterval_div_count [] [sampleRecord, sampleRecord]
    [sampleRecord, sampleRecord] rfl (by norm_num)

/-- C2: when every record is excluded (in particular when there are no
records at all), the estimator divides by nothing: the pass returns the
interval 300 = LOG_INTERVAL / 1 together with the pool containing the
single entry "A", instead of failing. -/
theorem empty_sample_defaults (excluded : List String) (data : List Record)
    (hall : ∀ a ∈ data, ∃ h, a[3]? = some h ∧ h ∈ excluded) :
    processResponse excluded (some data) = .cont 300 ["A"] := by
  have h1 := genuineQueries_all_excluded excluded data hall
  have h2 := queryTypes_all_excluded excluded data hall
  simp [processResponse, h1, h2, genuineCount, typePool, LOG_INTERVAL]

/-- Witness for C2: a single record from an excluded host. -/
theorem empty_sample_defaults_witness :
    processResponse ["localhost"] (some [localRecord]) =
      MainOutcome.cont 300 ["A"] :=
  empty_sample_defaults ["localhost"] [localRecord]
    (by
      intro a ha
      simp only [List.mem_singleton] at ha
      subst ha
      exact ⟨"localhost", rfl, by decide⟩)

/-- C3: a record whose source host is excluded contributes nothing:
removing it from the response data changes neither the genuine-record
list (hence not the count n) nor the collected type pool. -/
theorem excluded_record_contributes_nothing (excluded : List String)
    (a : Record) (h : String) (ha : a[3]? = some h)
    (hex : h ∈ excluded) :
    ∀ pre post : List Record,
      genuineQueries excluded (pre ++ a :: post) =
        genuineQueries excluded (pre ++ post) ∧
      queryTypes excluded (pre ++ a :: post) =
        queryTypes excluded (pre ++ post) := by
  intro pre
  induction pre with
  | nil =>
      intro post
      constructor
      · cases hp : genuineQueries excluded post <;>
          simp [genuineQueries, ha, hex, hp]
      · simp [queryTypes, ha, hex]
  | cons b pre ih =>
      intro post
      obtain ⟨ih1, ih2⟩ := ih post
      constructor
      · simp [genuineQueries, ih1]
      · simp [queryTypes, ih2]

/-- Witness for C3: an excluded localhost record after one genuine
record. -/
theorem excluded_record_contributes_nothing_witness :
    genuineQueries ["localhost"] ([sampleRecord] ++ localRecord :: []) =
      genuineQueries ["localhost"] ([sampleRecord] ++ []) ∧
    queryTypes ["localhost"] ([sampleRecord] ++ localRecord :: []) =
      queryTypes ["localhost"] ([sampleRecord] ++ []) :=
  excluded_record_contributes_nothing ["localhost"] localRecord "localhost"
    rfl (by decide) [sampleRecord] []

/-- C4 counterexample: at a failed resolution with the resampling
deadline not yet reached, the iteration writes no log entry for the
failure and still performs the pacing sleep, contrary to the claim that
the failure is logged and the sleep happens only on success. -/
theorem resolution_failure_sleep_counterexample :
    ¬ ((innerStep false 0 0 [] 1).loggedFailure = true ∧
       (innerStep false 0 0 [] 1).sleep = none) := by
  decide

/-- C4 amended: a failed resolution is caught and never propagates out of
the inner loop, but it is not logged; the iteration then proceeds exactly
as on success, and before the resampling deadline it sleeps
interval_seconds * 10 + jitter after failures as well as successes. -/
theorem resolution_failure_swallowed_then_sleeps (resolveOk : Bool)
    (now timeUntil : ℤ) (gs : List Record) (j : ℚ)
    (hdl : ¬ now - timeUntil > 60) :
    (innerStep resolveOk now timeUntil gs j).raised = false ∧
    (innerStep resolveOk now timeUntil gs j).loggedFailure = false ∧
    innerStep false now timeUntil gs j = innerStep true now timeUntil gs j ∧
    (innerStep resolveOk now timeUntil gs j).sleep =
      some (sleepBase gs * 10 + j) := by
  refine ⟨?_, ?_, rfl, ?_⟩ <;> simp [innerStep, hdl]

/-- Witness for the amended C4 at a concrete failed iteration. -/
theorem resolution_failure_swallowed_then_sleeps_witness :
    (innerStep false 0 0 [] 1).raised = false ∧
    (innerStep false 0 0 [] 1).loggedFailure = false ∧
    innerStep false 0 0 [] 1 = innerStep true 0 0 [] 1 ∧
    (innerStep false 0 0 [] 1).sleep = some (sleepBase [] * 10 + 1) :=
  resolution_failure_swallowed_then_sleeps false 0 0 [] 1 (by norm_num)

/-- C5: before the resampling deadline, the sleep after a successful
emission is exactly interval_seconds * 10 + jitter, and for jitter in
[0, 2) the blocked time never exceeds interval_seconds * 10 + 2. -/
theorem pacing_sleep_formula_and_bound (gs : List Record)
    (now timeUntil : ℤ) (j : ℚ) (hdl : ¬ now - timeUntil > 60)
    (h0 : 0 ≤ j) (h2 : j < 2) :
    (innerStep true now timeUntil gs j).sleep =
      some (sleepBase gs * 10 + j) ∧
    ∀ s, (innerStep true now timeUntil gs j).sleep = some s →
      s ≤ sleepBase gs * 10 + 2 := by
  constructor
  · simp [innerStep, hdl]
  · intro s hs
    simp only [innerStep, if_neg hdl, Option.some.injEq] at hs
    rw [← hs]
    linarith

/-- Witness for C5 at a concrete successful iteration. -/
theorem pacing_sleep_formula_and_bound_witness :
    (innerStep true 0 0 [] 1).sleep = some (sleepBase [] * 10 + 1) ∧
    ∀ s, (innerStep true 0 0 [] 1).sleep = some s →
      s ≤ sleepBase [] * 10 + 2 :=
  pacing_sleep_formula_and_bound [] 0 0 1 (by norm_num) (by norm_num)
    (by norm_num)

/-- C6: the rank is drawn from the closed integer range [1, 1000000]
(randint is inclusive), and on a corpus populated at every rank of that
range, every pick returns a domain string instead of raising. -/
theorem pick_random_domain_total_on_populated_corpus
    (corpus : ℕ → Option String)
    (hfull : ∀ r ∈ randintSupport 1 1000000,
      (pickRandomDomain corpus r).isSome = true)
    (r : ℕ) (hr : r ∈ randintSupport 1 1000000) :
    ∃ d, pickRandomDomain corpus r = some d :=
  Option.isSome_iff_exists.mp (hfull r hr)

/-- Witness for C6 on a fully populated corpus at rank 42. -/
theorem pick_random_domain_total_on_populated_corpus_witness :
    ∃ d, pickRandomDomain constCorpus 42 = some d :=
  pick_random_domain_total_on_populated_corpus constCorpus
    (fun _ _ => rfl) 42 (by norm_num [randintSupport])

/-- C7: a response without an iterable data list of indexable records
makes the pass log the error and exit with status 1 instead of
continuing. -/
theorem malformed_response_exits_nonzero (excluded : List String)
    (resp : Option (List Record))
    (hbad : resp = none ∨
      ∃ data a, resp = some data ∧ a ∈ data ∧ a[3]? = none) :
    ∃ msg, processResponse excluded resp = .exited 1 msg := by
  rcases hbad with rfl | ⟨data, a, rfl, hmem, h3⟩
  · exact ⟨_, rfl⟩
  · have hg := genuineQueries_isNone_of_missing excluded data ⟨a, hmem, h3⟩
    refine ⟨"Got badly formatted pi-hole API response, quitting.", ?_⟩
    simp [processResponse, hg]

/-- Witness for C7: a response whose single record has no index 3. -/
theorem malformed_response_exits_nonzero_witness :
    ∃ msg, processResponse [] (some [([] : Record)]) =
      MainOutcome.exited 1 msg :=
  malformed_response_exits_nonzero [] (some [([] : Record)])
    (Or.inr ⟨[([] : Record)], ([] : Record), rfl, by simp, rfl⟩)

/-- C8: when the API call fails exactly three times and then succeeds,
the retry loop sleeps 15 seconds after each of the three failures and
returns the fourth attempt result, with no error propagated. -/
theorem api_retry_three_failures_then_success {α : Type} (r : α)
    (rest : List (Option α)) :
    apiRetryLoop (none :: none :: none :: some r :: rest) =
      some (r, [15, 15, 15]) := by
  simp [apiRetryLoop]

/-- C9: a missing configuration file, or one without the auth_token key,
makes startup log the specific error and exit with status 1, with no
network activity whatsoever. -/
theorem missing_auth_token_exits_before_network
    (file : Option (List (String × CfgVal)))
    (hbad : file = none ∨
      ∃ cfg, file = some cfg ∧ hasKey cfg "auth_token" = false) :
    ∃ msg, mainStartup file = [Event.log msg, Event.exit 1] ∧
      Event.network ∉ mainStartup file := by
  rcases hbad with rfl | ⟨cfg, rfl, hk⟩
  · exact ⟨_, rfl, by decide⟩
  · refine ⟨"Configuration file config.yml does not contain the required auth_token element, aboring.", ?_, ?_⟩ <;>
      simp [mainStartup, get_config, hk]

/-- Witness for C9: a configuration file present but empty. -/
theorem missing_auth_token_exits_before_network_witness :
    ∃ msg, mainStartup (some []) = [Event.log msg, Event.exit 1] ∧
      Event.network ∉ mainStartup (some []) :=
  missing_auth_token_exits_before_network (some [])
    (Or.inr ⟨[], rfl, rfl⟩)

/-- C10: when at least one genuine record exists, the type pool is
exactly as long as the count n on which the interval is based: the two
filtering passes apply the identical exclusion predicate, and no default
substitution fires. -/
theorem type_pool_length_matches_interval_count (excluded : List String)
    (data gs : List Record) (ts : List String)
    (hgs : genuineQueries excluded data = some gs)
    (hts : queryTypes excluded data = some ts) (hne : gs ≠ []) :
    (typePool ts).length = genuineCount gs ∧
    genuineCount gs = gs.length := by
  have hlen := queryTypes_length_eq excluded data gs ts hgs hts
  have hg0 : gs.length ≠ 0 := by
    intro h; exact hne (List.length_eq_zero.mp h)
  have ht0 : ts.length ≠ 0 := by rw [hlen]; exact hg0
  constructor
  · simp [typePool, genuineCount, ht0, hg0, hlen]
  · simp [genuineCount, hg0]

/-- Witness for C10 at a one-record genuine sample. -/
theorem type_pool_length_matches_interval_count_witness :
    (typePool ["A"]).length = genuineCount [sampleRecord] ∧
    genuineCount [sampleRecord] = [sampleRecord].length :=
  type_pool_length_matches_interval_count [] [sampleRecord] [sampleRecord]
    ["A"] rfl rfl (by simp)

end DNoiSe
